import Mathlib

/-!
Shallow embedding of `src/app.py`, a Flask HTTP API server with six route
handlers: `/uploadlogjson`, `/askgemini`, `/checkthis`, `/downloadproxy`,
`/health` and `/`.  Each handler is embedded as a pure Lean function on its
inputs (query parameters, parsed JSON body, clock strings) plus, where the
handler performs fallible operations, an explicit fault input standing for a
runtime exception raised inside the handler's body.  A handler returns
`Except String HttpResponse` (or, for the upload handler, also the new
filesystem): `.ok` means the handler produced an HTTP response, `.error e`
means the exception `e` escaped the handler uncaught.
-/

namespace App

/-- JSON values, as produced by Flask's `request.get_json()`.
Numbers are modelled as integers; no claim depends on float semantics. -/
inductive Json where
  | null
  | bool (b : Bool)
  | num (n : Int)
  | str (s : String)
  | arr (elems : List Json)
  | obj (entries : List (String × Json))

/-- Python truthiness (`bool(x)`) of a JSON value: `None`, `False`, `0`,
`""`, `[]` and `\x7b\x7d` are falsy, everything else is truthy.  The source
tests `if not json_data` and `if not question` with exactly this semantics. -/
def Json.truthy : Json → Bool
  | .null => false
  | .bool b => b
  | .num n => n != 0
  | .str s => s != ""
  | .arr elems => !elems.isEmpty
  | .obj entries => !entries.isEmpty

/-- Whether a JSON value is an object (a Python `dict`).  `data.get(...)`
raises `AttributeError` on every other kind of value. -/
def Json.isObj : Json → Bool
  | .obj _ => true
  | _ => false

/-- The Python type name of a JSON value, used in `AttributeError` messages. -/
def pyTypeName : Json → String
  | .null => "NoneType"
  | .bool _ => "bool"
  | .num _ => "int"
  | .str _ => "str"
  | .arr _ => "list"
  | .obj _ => "dict"

/-- The `str(e)` of the `AttributeError` raised by `data.get(...)` when
`data` is not a dict. -/
def attrErrMsg (j : Json) : String :=
  "\x27" ++ pyTypeName j ++ "\x27 object has no attribute \x27get\x27"

/-- An HTTP response body: `jsonify(...)` output or plain text. -/
inductive Body where
  | jsonB (j : Json)
  | textB (s : String)

/-- An HTTP response: status code, `Content-Type` header, body, and any
further headers the handler sets explicitly. -/
structure HttpResponse where
  status : Nat
  contentType : String
  body : Body
  extraHeaders : List (String × String)

/-- Field access on a JSON object (`none` on other values or missing key). -/
def Json.get : Json → String → Option Json
  | .obj entries, k => entries.lookup k
  | _, _ => none

/-- A field of a JSON response body (`none` for text bodies). -/
def HttpResponse.field (r : HttpResponse) (k : String) : Option Json :=
  match r.body with
  | .jsonB j => j.get k
  | .textB _ => none

/-- `jsonify(\x7b'error': msg\x7d), 400`. -/
def badRequest (msg : String) : HttpResponse :=
  ⟨400, "application/json", .jsonB (.obj [("error", .str msg)]), []⟩

/-- `jsonify(\x7b'error': msg\x7d), 500`, the shape of every JSON except-clause. -/
def serverErrorJson (msg : String) : HttpResponse :=
  ⟨500, "application/json", .jsonB (.obj [("error", .str msg)]), []⟩

/-- The filesystem visible to the server: an association list from file path
to written JSON content. -/
abbrev FS := List (String × Json)

/-- `open(p, 'w')` + `json.dump`: overwrite the file at `p` if it exists,
otherwise create it. -/
def FS.write (fs : FS) (p : String) (v : Json) : FS :=
  if (fs.lookup p).isSome then
    fs.map (fun kv => if kv.1 = p then (p, v) else kv)
  else
    fs ++ [(p, v)]

/-- `f"\x7bname\x7d_\x7bexam\x7d_\x7btimestamp\x7d.json"` (app.py line 32). -/
def uploadFilename (name exam ts : String) : String :=
  name ++ "_" ++ exam ++ "_" ++ ts ++ ".json"

/-- `os.path.join('logs', filename)` (app.py line 33). -/
def uploadPath (name exam ts : String) : String :=
  "logs/" ++ uploadFilename name exam ts

/-- The `log_entry` dict written to the file (app.py lines 36-44). -/
def logEntry (name exam ts iso : String) (j : Json) : Json :=
  .obj [("metadata", .obj [("name", .str name), ("exam", .str exam),
                           ("timestamp", .str ts), ("upload_time", .str iso)]),
        ("data", j)]

/-- The 200 response of `upload_log_json` (app.py lines 52-58). -/
def uploadOkResponse (name exam ts : String) : HttpResponse :=
  ⟨200, "application/json",
   .jsonB (.obj [("status", .str "success"),
                 ("message", .str "JSON data uploaded successfully"),
                 ("filename", .str (uploadFilename name exam ts)),
                 ("name", .str name), ("exam", .str exam)]), []⟩

/-- Handler of `POST /uploadlogjson` (app.py lines 8-62).
`name`/`exam` are the query parameters (`none` when absent), `body` is
`request.get_json()` (`none` when there is no JSON body), `ts` and `iso` are
the two clock reads, and `writeErr` injects a failure of the directory
creation / file write (`some e` means that operation raised with message
`e`, which the `except` clause turns into a 500).  Returns the response and
the new filesystem; the whole body is wrapped in `try/except Exception`, so
no exception ever escapes and the result is always `.ok`. -/
def upload_log_json (name exam : Option String) (body : Option Json)
    (ts iso : String) (writeErr : Option String) (fs : FS) :
    Except String (HttpResponse × FS) :=
  .ok <|
    let n := name.getD "unknown"
    let e := exam.getD "unknown"
    match body with
    | none => (badRequest "No JSON data provided", fs)
    | some j =>
      if j.truthy = false then (badRequest "No JSON data provided", fs)
      else
        match writeErr with
        | some err => (serverErrorJson ("Failed to upload data: " ++ err), fs)
        | none =>
          (uploadOkResponse n e ts,
           FS.write fs (uploadPath n e ts) (logEntry n e ts iso j))

/-- The hardcoded FRQ mock response of `ask_gemini` (app.py lines 97-100). -/
def frqResponse : HttpResponse :=
  ⟨200, "application/json",
   .jsonB (.obj [("initialAttempt",
                  .str "This is a sample reasoning for the FRQ question."),
                 ("finalAnswer",
                  .str "This is the final answer to the free response question.")]),
   []⟩

/-- The hardcoded MCQ mock response of `ask_gemini` (app.py lines 103-106). -/
def mcqResponse : HttpResponse :=
  ⟨200, "application/json",
   .jsonB (.obj [("rationale",
                  .str "This is the reasoning behind the answer selection."),
                 ("selectedChoice", .str "A")]), []⟩

/-- Handler of `POST /askgemini` (app.py lines 64-112).  `body` is
`request.get_json()`.  A falsy body gives 400; a truthy non-dict body makes
`data.get('question', '')` raise `AttributeError`, which the `except`
clause turns into a 500; a falsy `question` gives 400; otherwise the
truthiness of `is_frq` (default `False`) picks one of two hardcoded
responses.  The whole body is wrapped in `try/except Exception`, so the
result is always `.ok`. -/
def ask_gemini (body : Option Json) : Except String HttpResponse :=
  .ok <|
    match body with
    | none => badRequest "No JSON data provided"
    | some data =>
      if data.truthy = false then badRequest "No JSON data provided"
      else
        match data with
        | .obj entries =>
          let question := (entries.lookup "question").getD (.str "")
          let is_frq := (entries.lookup "is_frq").getD (.bool false)
          if question.truthy = false then badRequest "Question is required"
          else if is_frq.truthy then frqResponse
          else mcqResponse
        | other =>
          serverErrorJson ("Failed to process question: " ++ attrErrMsg other)

/-- Handler of `GET /checkthis` (app.py lines 114-137).  The query
parameters `code`, `hwid`, `name` are read (with default `''`) and only
printed; the response is a hardcoded constant.  `fault` injects an
exception raised in the `try` body, which the `except` clause turns into a
500, so the result is always `.ok`. -/
def check_this (code hwid name : Option String) (fault : Option String) :
    Except String HttpResponse :=
  .ok <|
    match fault with
    | some e => serverErrorJson ("Failed to process check: " ++ e)
    | none =>
      let _ := code.getD ""
      let _ := hwid.getD ""
      let _ := name.getD ""
      ⟨200, "application/json",
       .jsonB (.obj [("delete", .bool false), ("quit", .bool false)]), []⟩

/-- The `pac_content` string literal of `download_proxy` (app.py lines
147-155), braces written as escapes. -/
def pac_content : String :=
  "\nfunction FindProxyForURL(url, host) \x7b\n    // Proxy configuration\n    var proxy = \"PROXY 127.0.0.1:8080\";\n\n    // Send all traffic through the proxy\n    return proxy;\n\x7d\n"

/-- Handler of `GET /downloadproxy` (app.py lines 139-166).  Returns the PAC
file with an explicit `Content-Type` and `Content-Disposition`.  `fault`
injects an exception in the `try` body; the `except` clause returns plain
text `f"Error: ..."` with status 500 (Flask's default content type), so the
result is always `.ok`. -/
def download_proxy (fault : Option String) : Except String HttpResponse :=
  .ok <|
    match fault with
    | some e => ⟨500, "text/html", .textB ("Error: " ++ e), []⟩
    | none =>
      ⟨200, "application/x-ns-proxy-autoconfig", .textB pac_content,
       [("Content-Disposition", "inline; filename=\"proxy.pac\"")]⟩

/-- Handler of `GET /health` (app.py lines 168-171).  `iso` is
`datetime.now().isoformat()`.  There is NO try/except here: `fault`
injects an exception in the body, and it escapes as `.error`. -/
def health_check (iso : String) (fault : Option String) :
    Except String HttpResponse :=
  match fault with
  | some e => .error e
  | none =>
    .ok ⟨200, "application/json",
         .jsonB (.obj [("status", .str "healthy"), ("timestamp", .str iso)]),
         []⟩

/-- Handler of `GET /` (app.py lines 173-187).  There is NO try/except
here either: `fault` injects an exception in the body, and it escapes as
`.error`. -/
def index (iso : String) (fault : Option String) :
    Except String HttpResponse :=
  match fault with
  | some e => .error e
  | none =>
    .ok ⟨200, "application/json",
         .jsonB (.obj
           [("name", .str "Backend API Server"),
            ("version", .str "1.0.0"),
            ("endpoints", .arr
              [.str "POST /uploadlogjson?name=<name>&exam=<exam>",
               .str "POST /askgemini",
               .str "GET /checkthis?code=<code>&hwid=<hwid>&name=<name>",
               .str "GET /downloadproxy",
               .str "GET /health"]),
            ("timestamp", .str iso)]), []⟩

/-- C2: a POST to /uploadlogjson with no JSON body gets HTTP 400 and the
filesystem (in particular the logs directory) is unchanged, whatever the
query parameters, clock values and write-fault input are. -/
theorem upload_no_body_400 (name exam : Option String) (ts iso : String)
    (writeErr : Option String) (fs : FS) :
    upload_log_json name exam none ts iso writeErr fs =
      .ok (badRequest "No JSON data provided", fs) ∧
    (badRequest "No JSON data provided").status = 400 :=
  ⟨rfl, rfl⟩

/-- C5: a GET to /downloadproxy (with no internal failure) returns status
200 with Content-Type `application/x-ns-proxy-autoconfig`, and the body is
`pac_content`, which contains the literal string `FindProxyForURL`. -/
theorem download_proxy_pac :
    download_proxy none =
      .ok ⟨200, "application/x-ns-proxy-autoconfig", .textB pac_content,
           [("Content-Disposition", "inline; filename=\"proxy.pac\"")]⟩ ∧
    ∃ a b, pac_content = a ++ "FindProxyForURL" ++ b :=
  ⟨rfl,
   "\nfunction ",
   "(url, host) \x7b\n    // Proxy configuration\n    var proxy = \"PROXY 127.0.0.1:8080\";\n\n    // Send all traffic through the proxy\n    return proxy;\n\x7d\n",
   rfl⟩

/-- C7: a GET to /health (with no internal failure) returns HTTP 200 with a
JSON body whose `status` field is the string "healthy" and which also has a
`timestamp` field (the ISO clock reading). -/
theorem health_check_healthy (iso : String) :
    health_check iso none =
      .ok ⟨200, "application/json",
           .jsonB (.obj [("status", .str "healthy"),
                         ("timestamp", .str iso)]), []⟩ ∧
    List.lookup "status" [("status", Json.str "healthy"),
                          ("timestamp", Json.str iso)] =
      some (Json.str "healthy") ∧
    List.lookup "timestamp" [("status", Json.str "healthy"),
                             ("timestamp", Json.str iso)] =
      some (Json.str iso) :=
  ⟨rfl, rfl, rfl⟩

/-- C8: a GET to /checkthis (with no internal failure) returns HTTP 200
with exactly `\x7bdelete: false, quit: false\x7d`, independently of the
`code`, `hwid` and `name` query parameters (absent or not): any two runs
with different parameters produce identical responses. -/
theorem check_this_constant (code hwid name code2 hwid2 name2 : Option String) :
    check_this code hwid name none = check_this code2 hwid2 name2 none ∧
    check_this code hwid name none =
      .ok ⟨200, "application/json",
           .jsonB (.obj [("delete", .bool false), ("quit", .bool false)]),
           []⟩ :=
  ⟨rfl, rfl⟩

/-- C4: a POST to /askgemini whose JSON-object body lacks a `question` key
(the empty object included) gets HTTP 400. -/
theorem ask_gemini_no_question (entries : List (String × Json))
    (h : entries.lookup "question" = none) :
    ∃ r, ask_gemini (some (Json.obj entries)) = .ok r ∧ r.status = 400 := by
  cases entries with
  | nil => exact ⟨badRequest "No JSON data provided", rfl, rfl⟩
  | cons kv rest =>
    refine ⟨badRequest "Question is required", ?_, rfl⟩
    simp [ask_gemini, Json.truthy, h]

/-- Witness for C4 at the body `\x7b"service": "s"\x7d`. -/
theorem ask_gemini_no_question_witness :
    List.lookup "question" [("service", Json.str "s")] = none ∧
    ∃ r, ask_gemini (some (Json.obj [("service", Json.str "s")])) = .ok r ∧
      r.status = 400 :=
  ⟨rfl, ask_gemini_no_question _ rfl⟩

/-- C1 counterexample: `\x7b\x7d` is a valid JSON body, yet (by Python
falsiness of the empty dict) the handler returns HTTP 400 and writes no
file at all — not "exactly one file" with a 200 response. -/
theorem upload_empty_object_no_file :
    upload_log_json (some "foo") (some "bar") (some (Json.obj []))
        "20240101_000000" "2024-01-01T00:00:00" none [] =
      .ok (badRequest "No JSON data provided", ([] : FS)) ∧
    (badRequest "No JSON data provided").status = 400 :=
  ⟨rfl, rfl⟩

/-- C1 (amended): a POST to /uploadlogjson with a TRUTHY JSON body (one
that is not falsy in Python: not `\x7b\x7d`, `[]`, `""`, `0`, `false` or
`null`) appends exactly one file under `logs/`, named
`\x7bname\x7d_\x7bexam\x7d_\x7btimestamp\x7d.json`; the file's `data` field
is the posted body, its `metadata.name`/`metadata.exam` are the query
parameters, and the 200 response's `filename` field is that file's name. -/
theorem upload_truthy_creates_one_file (name exam : Option String) (j : Json)
    (ts iso : String) (fs : FS) (hj : j.truthy = true)
    (hfresh : fs.lookup
        (uploadPath (name.getD "unknown") (exam.getD "unknown") ts) = none) :
    upload_log_json name exam (some j) ts iso none fs =
      .ok (uploadOkResponse (name.getD "unknown") (exam.getD "unknown") ts,
           fs ++ [(uploadPath (name.getD "unknown") (exam.getD "unknown") ts,
                   logEntry (name.getD "unknown") (exam.getD "unknown") ts iso j)]) ∧
    (logEntry (name.getD "unknown") (exam.getD "unknown") ts iso j).get "data" =
      some j ∧
    (logEntry (name.getD "unknown") (exam.getD "unknown") ts iso j).get "metadata" =
      some (.obj [("name", .str (name.getD "unknown")),
                  ("exam", .str (exam.getD "unknown")),
                  ("timestamp", .str ts), ("upload_time", .str iso)]) ∧
    (uploadOkResponse (name.getD "unknown") (exam.getD "unknown") ts).status = 200 ∧
    (uploadOkResponse (name.getD "unknown") (exam.getD "unknown") ts).field "filename" =
      some (.str (uploadFilename (name.getD "unknown") (exam.getD "unknown") ts)) ∧
    uploadFilename (name.getD "unknown") (exam.getD "unknown") ts =
      (name.getD "unknown") ++ "_" ++ (exam.getD "unknown") ++ "_" ++ ts ++ ".json" ∧
    uploadPath (name.getD "unknown") (exam.getD "unknown") ts =
      "logs/" ++ uploadFilename (name.getD "unknown") (exam.getD "unknown") ts := by
  refine ⟨?_, rfl, rfl, rfl, rfl, rfl, rfl⟩
  simp [upload_log_json, hj, FS.write, hfresh]

/-- Witness for C1 (amended) at name=foo, exam=bar,
body `\x7b"score": 5\x7d`, empty initial filesystem. -/
theorem upload_truthy_creates_one_file_witness :
    (Json.obj [("score", Json.num 5)]).truthy = true ∧
    ([] : FS).lookup (uploadPath "foo" "bar" "20240101_000000") = none ∧
    upload_log_json (some "foo") (some "bar")
        (some (Json.obj [("score", Json.num 5)]))
        "20240101_000000" "2024-01-01T00:00:00" none [] =
      .ok (uploadOkResponse "foo" "bar" "20240101_000000",
           [] ++ [(uploadPath "foo" "bar" "20240101_000000",
                   logEntry "foo" "bar" "20240101_000000" "2024-01-01T00:00:00"
                     (Json.obj [("score", Json.num 5)]))]) :=
  ⟨rfl, rfl,
   (upload_truthy_creates_one_file (some "foo") (some "bar")
     (Json.obj [("score", Json.num 5)]) "20240101_000000"
     "2024-01-01T00:00:00" [] rfl rfl).1⟩

/-- C9 counterexample: with `name` absent and the valid JSON body
`\x7b\x7d`, the request does not succeed with 200: by Python falsiness of
the empty dict the handler returns 400 and writes no file. -/
theorem upload_missing_name_empty_object_400 :
    upload_log_json none (some "bar") (some (Json.obj []))
        "20240101_000000" "2024-01-01T00:00:00" none [] =
      .ok (badRequest "No JSON data provided", ([] : FS)) ∧
    (badRequest "No JSON data provided").status = 400 :=
  ⟨rfl, rfl⟩

/-- C9 (amended): for a TRUTHY JSON body (not falsy in Python), an absent
`name` or `exam` query parameter is replaced by the string "unknown": the
upload still succeeds with 200, and "unknown" appears in the written
filename, in `metadata.name`/`metadata.exam`, and in the response's
`name`/`exam` fields. -/
theorem upload_missing_params_default (name exam : Option String) (j : Json)
    (ts iso : String) (fs : FS) (hj : j.truthy = true) :
    upload_log_json none exam (some j) ts iso none fs =
      .ok (uploadOkResponse "unknown" (exam.getD "unknown") ts,
           FS.write fs (uploadPath "unknown" (exam.getD "unknown") ts)
             (logEntry "unknown" (exam.getD "unknown") ts iso j)) ∧
    upload_log_json name none (some j) ts iso none fs =
      .ok (uploadOkResponse (name.getD "unknown") "unknown" ts,
           FS.write fs (uploadPath (name.getD "unknown") "unknown" ts)
             (logEntry (name.getD "unknown") "unknown" ts iso j)) ∧
    (uploadOkResponse "unknown" (exam.getD "unknown") ts).status = 200 ∧
    (uploadOkResponse "unknown" (exam.getD "unknown") ts).field "name" =
      some (.str "unknown") ∧
    (uploadOkResponse (name.getD "unknown") "unknown" ts).field "exam" =
      some (.str "unknown") ∧
    (logEntry "unknown" (exam.getD "unknown") ts iso j).get "metadata" =
      some (.obj [("name", .str "unknown"),
                  ("exam", .str (exam.getD "unknown")),
                  ("timestamp", .str ts), ("upload_time", .str iso)]) ∧
    (logEntry (name.getD "unknown") "unknown" ts iso j).get "metadata" =
      some (.obj [("name", .str (name.getD "unknown")),
                  ("exam", .str "unknown"),
                  ("timestamp", .str ts), ("upload_time", .str iso)]) ∧
    uploadFilename "unknown" (exam.getD "unknown") ts =
      "unknown" ++ "_" ++ (exam.getD "unknown") ++ "_" ++ ts ++ ".json" := by
  refine ⟨?_, ?_, rfl, rfl, rfl, rfl, rfl, rfl⟩
  · simp [upload_log_json, hj]
  · simp [upload_log_json, hj]

/-- Witness for C9 at exam=bar (name absent), body `\x7b"score": 5\x7d`. -/
theorem upload_missing_params_default_witness :
    (Json.obj [("score", Json.num 5)]).truthy = true ∧
    upload_log_json none (some "bar") (some (Json.obj [("score", Json.num 5)]))
        "20240101_000000" "2024-01-01T00:00:00" none [] =
      .ok (uploadOkResponse "unknown" "bar" "20240101_000000",
           FS.write [] (uploadPath "unknown" "bar" "20240101_000000")
             (logEntry "unknown" "bar" "20240101_000000" "2024-01-01T00:00:00"
               (Json.obj [("score", Json.num 5)]))) :=
  ⟨rfl,
   (upload_missing_params_default (some "unused") (some "bar")
     (Json.obj [("score", Json.num 5)]) "20240101_000000"
     "2024-01-01T00:00:00" [] rfl).1⟩

/-- C6 counterexample: `health_check` has no try/except, so an exception
raised inside its body escapes the handler uncaught instead of becoming a
500 response with an error message. -/
theorem health_check_uncaught :
    health_check "2024-01-01T00:00:00" (some "boom") = .error "boom" :=
  rfl

/-- C6 (amended): the four handlers `upload_log_json`, `ask_gemini`,
`check_this` and `download_proxy` catch generic failures and return a 500
with an error message, and missing required input yields 400, not 500; but
`health_check` and `index` have no exception handler, so a failure inside
them escapes uncaught. -/
theorem handlers_exception_behavior :
    (∀ name exam body ts iso writeErr fs,
       ∃ p, upload_log_json name exam body ts iso writeErr fs = .ok p) ∧
    (∀ name exam j ts iso err fs, Json.truthy j = true →
       upload_log_json name exam (some j) ts iso (some err) fs =
         .ok (serverErrorJson ("Failed to upload data: " ++ err), fs)) ∧
    (∀ body, ∃ r, ask_gemini body = .ok r) ∧
    (∀ j, Json.truthy j = true → Json.isObj j = false →
       ask_gemini (some j) =
         .ok (serverErrorJson ("Failed to process question: " ++ attrErrMsg j))) ∧
    (∀ code hwid name e, check_this code hwid name (some e) =
       .ok (serverErrorJson ("Failed to process check: " ++ e))) ∧
    (∀ e, download_proxy (some e) =
       .ok ⟨500, "text/html", .textB ("Error: " ++ e), []⟩) ∧
    (∀ iso e, health_check iso (some e) = .error e) ∧
    (∀ iso e, index iso (some e) = .error e) ∧
    (∀ name exam ts iso writeErr fs,
       upload_log_json name exam none ts iso writeErr fs =
         .ok (badRequest "No JSON data provided", fs)) ∧
    (∀ entries, List.lookup "question" entries = none →
       ∃ r, ask_gemini (some (Json.obj entries)) = .ok r ∧ r.status = 400) := by
  refine ⟨?_, ?_, ?_, ?_, fun _ _ _ _ => rfl, fun _ => rfl, fun _ _ => rfl,
          fun _ _ => rfl, fun _ _ _ _ _ _ => rfl, ?_⟩
  · intro name exam body ts iso writeErr fs
    exact ⟨_, rfl⟩
  · intro name exam j ts iso err fs hj
    simp [upload_log_json, hj]
  · intro body
    exact ⟨_, rfl⟩
  · intro j hj hobj
    cases j <;> simp_all [ask_gemini, Json.truthy, Json.isObj]
  · intro entries h
    cases entries with
    | nil => exact ⟨badRequest "No JSON data provided", rfl, rfl⟩
    | cons kv rest =>
      refine ⟨badRequest "Question is required", ?_, rfl⟩
      simp [ask_gemini, Json.truthy, h]

/-- Witness for C6 (amended): a write failure inside the upload handler
is caught and becomes a 500 JSON error response, filesystem unchanged. -/
theorem handlers_exception_behavior_witness :
    (Json.obj [("k", Json.null)]).truthy = true ∧
    upload_log_json (some "a") (some "b") (some (Json.obj [("k", Json.null)]))
        "20240101_000000" "2024-01-01T00:00:00" (some "disk full") [] =
      .ok (serverErrorJson ("Failed to upload data: " ++ "disk full"),
           ([] : FS)) :=
  ⟨rfl,
   handlers_exception_behavior.2.1 (some "a") (some "b")
     (Json.obj [("k", Json.null)]) "20240101_000000" "2024-01-01T00:00:00"
     "disk full" [] rfl⟩

end App
